import Mathlib

/-!
Shallow embedding of the `hack-dance/assistants` repository: the server-side
route dispatcher (`createAssistantRoutes` and its fixed `routeHandlers`
table), the client-side `ThreadManager` (message fetching, message sending,
run starting, the run-status poll loop, tool-call dispatch, initialization
and the assistant-functions configuration check), and the `useThread`
binding hook (its `onMessagesUpdated` closure and its `sendMessage` action).

HTTP calls are modelled by passing each fetch's outcome in explicitly as a
`FetchResult`; observable side effects (callbacks fired, requests issued,
timers scheduled) are modelled as an emitted `Event` list, in program order.
-/

namespace Assistants

/-- HTTP methods used by the route table. -/
inductive Method
  | GET
  | POST
  deriving DecidableEq, Repr

/-- The names of the server-side remote operations referenced by the
`routeHandlers` table. -/
inductive OpName
  | getAssistant
  | getAssistantFunctions
  | handleCreateThread
  | getThread
  | handleSendMessage
  | handleGetMessages
  | handleStartRun
  | checkRunStatus
  | processToolActionsOp
  | uploadFile
  | getFile
  deriving DecidableEq, Repr

/-- The fixed nested `routeHandlers` table: family -> action -> method ->
operation, exactly as written in the source (`run` has actions `_` (POST
only), `status` (GET) and `process-fns` (POST); there is no `latest` action
and no GET entry under `run._`). -/
def getRouteHandler (object action : String) (method : Method) : Option OpName :=
  match object, action, method with
  | "assistant", "_", .GET => some .getAssistant
  | "assistant", "functions", .GET => some .getAssistantFunctions
  | "thread", "_", .POST => some .handleCreateThread
  | "thread", "_", .GET => some .getThread
  | "thread", "messages", .POST => some .handleSendMessage
  | "thread", "messages", .GET => some .handleGetMessages
  | "thread", "runs", .POST => some .handleStartRun
  | "run", "_", .POST => some .handleStartRun
  | "run", "status", .GET => some .checkRunStatus
  | "run", "process-fns", .POST => some .processToolActionsOp
  | "file", "_", .POST => some .uploadFile
  | "file", "_", .GET => some .getFile
  | _, _, _ => none

/-- `determineRouteObject` from `createAssistantRoutes`: picks the resource
family and sub-action from the catch-all path segments (the segments after
the assistant id).  `params[i] ?? "_"` is modelled by `Option.getD`. -/
def determineRouteObject (params : List String) : String × String :=
  if params.get? 0 == some "threads" then
    let object := if params.get? 2 == some "runs" then "run" else "thread"
    let action := (params.get? (if object == "run" then 4 else 2)).getD "_"
    (object, action)
  else if params.get? 0 == some "files" then
    ("file", (params.get? 1).getD "_")
  else
    ("assistant", (params.get? 0).getD "_")

/-- The dispatcher's handler resolution: `none` means the request falls into
the `if (!handler)` branch and is answered with a 404 `Not Found` envelope,
with no operation invoked. -/
def dispatch (params : List String) (method : Method) : Option OpName :=
  let oa := determineRouteObject params
  getRouteHandler oa.1 oa.2 method

/-- A thread message as far as this system inspects it: an id, a creation
timestamp and some content.  The remote service returns message lists
ordered by `created_at` descending. -/
structure Msg where
  id : String
  created_at : Nat
  content : String
  deriving DecidableEq, Repr

/-- A declared tool on an assistant, as inspected by the configuration
check: its `type` and, for function-type tools, the function name. -/
structure ToolSpec where
  type : String
  fname : String
  deriving DecidableEq, Repr

/-- The slice of the remote assistant object the manager uses. -/
structure Assistant where
  name : String
  tools : List ToolSpec
  deriving DecidableEq, Repr

/-- One tool call from a run's `required_action.submit_tool_outputs`
payload: id, `type`, function name and the serialized argument string. -/
structure ToolCall where
  id : String
  type : String
  fname : String
  args : String
  deriving DecidableEq, Repr

/-- The slice of a remote run object the manager uses: id, status string,
and the tool calls carried by its required action (empty when absent). -/
structure Run where
  id : String
  status : String
  toolCalls : List ToolCall
  deriving DecidableEq, Repr

/-- Outcome of one `fetch` as the client code observes it: `notOk` covers a
non-2xx response (`!response.ok`); `ok a` is a successful response whose
parsed JSON body is `a`. -/
inductive FetchResult (α : Type)
  | notOk
  | ok (a : α)
  deriving DecidableEq, Repr

/-- Observable effects of the client manager and hook, in program order:
requests issued, callbacks fired, timers scheduled, uncaught throws. -/
inductive Event
  | messageCreateRequested (content : String) (runInstructions : Option String)
  | messagesUpdated (data : List Msg)
  | runCreateRequested
  | runStatusChanged (status : String)
  | toolOutputsSubmitted (results : List (String × Option String))
  | dispatchErrorLogged
  | pollScheduled
  | pollThrew (msg : String)
  | initialized
  deriving DecidableEq, Repr

/-- Recognizer for message-refresh callback events. -/
def Event.isMessagesUpdated : Event → Bool
  | .messagesUpdated _ => true
  | _ => false

/-- Recognizer for poll-timer scheduling events. -/
def Event.isPollScheduled : Event → Bool
  | .pollScheduled => true
  | _ => false

/-- A caller-supplied local function handler: takes the (serialized)
argument payload and either returns a string or throws. -/
def Handler : Type := String → Except Unit String

/-- The in-memory state owned by one `ThreadManager` instance (the function
map is passed separately so the state stays decidably comparable). -/
structure MgrState where
  assistantId : String
  threadId : Option String := none
  assistant : Option Assistant := none
  messages : List Msg := []
  activeRunId : Option String := none
  initialized : Bool := false
  deriving DecidableEq, Repr

namespace ThreadManager

/-- `this.functions[action.function.name](JSON.parse(action.function.arguments))`:
a missing handler is a thrown `TypeError`, and a throwing handler is an
error; both land in the same `catch`. -/
def invokeHandler (fns : List (String × Handler)) (a : ToolCall) : Except Unit String :=
  match fns.lookup a.fname with
  | none => .error ()
  | some f => f a.args

/-- The result-collection loop of `processToolActions`: function-type calls
are invoked one by one; a successful call records its string keyed by the
tool-call id, a throwing call records `null` (`none`) and the loop
continues; non-function calls are skipped. -/
def collectResults (fns : List (String × Handler)) : List ToolCall → List (String × Option String)
  | [] => []
  | a :: rest =>
    if a.type == "function" then
      match invokeHandler fns a with
      | .ok s => (a.id, some s) :: collectResults fns rest
      | .error _ => (a.id, none) :: collectResults fns rest
    else collectResults fns rest

/-- `ThreadManager.processToolActions`: collect all results, then submit
them to `/runs/{id}/process-fns` in one request; a failed submission is
raised, caught by the method's own `try/catch` and only logged, so the
method never propagates an error to the poll loop.  `subOk` is the
submission fetch's outcome. -/
def processToolActions (fns : List (String × Handler)) (subOk : Bool) (r : Run) : List Event :=
  Event.toolOutputsSubmitted (collectResults fns r.toolCalls) ::
    (if subOk then [] else [Event.dispatchErrorLogged])

/-- Substring containment on character lists: `pat` occurs contiguously
somewhere in `s`. -/
def containsSub (pat : List Char) : List Char → Bool
  | [] => pat.isEmpty
  | c :: rest => pat.isPrefixOf (c :: rest) || containsSub pat rest

/-- The unanchored regex test `run.status.match(/failed|cancelled|expired/)`:
true iff one of the three words occurs as a substring of the status. -/
def regexTerminal (s : String) : Bool :=
  containsSub "failed".toList s.toList || containsSub "cancelled".toList s.toList ||
    containsSub "expired".toList s.toList

/-- The poll loop's terminal-status test:
`run.status === "completed" || run.status.match(/failed|cancelled|expired/)`. -/
def isTerminalPoll (s : String) : Bool :=
  s == "completed" || regexTerminal s

/-- What the environment returns for one poll cycle's status fetch:
`failed` is a rejected fetch or a non-ok response, `run r` a parsed run. -/
inductive PollResp
  | failed
  | run (r : Run)
  deriving DecidableEq, Repr

/-- How a poll chain ends relative to a finite list of supplied responses:
`stopped` = returned after a terminal status with no timer pending;
`died` = the poll callback threw (unhandled rejection), no timer pending;
`morePolls` = all supplied responses consumed and a timer is still pending. -/
inductive PollEnd
  | stopped
  | died
  | morePolls
  deriving DecidableEq, Repr

/-- The self-rescheduling poll loop of `ThreadManager.pollRunStatus`, run
against a finite list of per-cycle status-fetch outcomes.  Each cycle:
throw on a failed fetch (nothing catches it — the chain dies); otherwise
fire `onRunStatusChanged`; on a terminal status fire-and-forget a message
refresh (`page` is the refreshed list) and return; on `requires_action`
await the tool dispatch; then `setTimeout(poll, pollInterval)`. -/
def pollChain (fns : List (String × Handler)) (subOk : Bool) (page : List Msg) :
    List PollResp → List Event × PollEnd
  | [] => ([], .morePolls)
  | .failed :: _ => ([.pollThrew "Failed to check run status"], .died)
  | .run r :: rest =>
    if isTerminalPoll r.status then
      ([.runStatusChanged r.status, .messagesUpdated page], .stopped)
    else
      let dispatchEvents :=
        if r.status == "requires_action" then processToolActions fns subOk r else []
      let next := pollChain fns subOk page rest
      (Event.runStatusChanged r.status :: dispatchEvents ++ Event.pollScheduled :: next.1,
        next.2)

/-- `ThreadManager.getMessages`: fetch the thread's messages, store the
parsed body unchanged in `this.messages`, and pass the same body to
`onMessagesUpdated`. -/
def getMessages (resp : FetchResult (List Msg)) (st : MgrState) :
    Except String (MgrState × List Event) :=
  if st.threadId.isNone then .error "Thread ID not provided"
  else
    match resp with
    | .notOk => .error "Failed to retrieve messages"
    | .ok data => .ok ({ st with messages := data }, [.messagesUpdated data])

/-- `ThreadManager.startRun`: POST to `/runs/_`, fire `onRunStatusChanged`
with the new run's status, record it as the active run (polling then begins
asynchronously, modelled separately by `pollChain`). -/
def startRun (resp : FetchResult Run) (st : MgrState) :
    Except String (MgrState × List Event × Run) :=
  if st.threadId.isNone then .error "Thread ID not provided"
  else
    match resp with
    | .notOk => .error "Failed to start run"
    | .ok run =>
      .ok ({ st with activeRunId := some run.id },
        [.runCreateRequested, .runStatusChanged run.status], run)

/-- The environment for one `sendMessage` call: the outcomes of its three
fetches (append message, list messages, create run), in the order the
method performs them. -/
structure SendEnv where
  appendResp : FetchResult Msg
  messagesResp : FetchResult (List Msg)
  runResp : FetchResult Run
  deriving DecidableEq, Repr

/-- `ThreadManager.sendMessage content runInstructions`: POST the message
body (serialized from `content` and `runInstructions`), then
`await this.getMessages()`, then `await this.startRun({})`, and resolve
with the appended message object. -/
def sendMessage (env : SendEnv) (st : MgrState) (content : String)
    (runInstructions : Option String) : Except String (MgrState × List Event × Msg) :=
  if st.threadId.isNone then .error "Thread ID not provided"
  else
    match env.appendResp with
    | .notOk => .error "Failed to send message"
    | .ok message =>
      match getMessages env.messagesResp st with
      | .error e => .error e
      | .ok (st1, e1) =>
        match startRun env.runResp st1 with
        | .error e => .error e
        | .ok (st2, e2, _) =>
          .ok (st2, Event.messageCreateRequested content runInstructions :: (e1 ++ e2),
            message)

/-- `ThreadManager.checkAssistantFunctions`: walk `this.assistant?.tools`;
the first function-type tool whose name has no entry in the function map
throws a configuration error naming the assistant and the function. -/
def checkAssistantFunctions (a? : Option Assistant) (fns : List (String × Handler)) :
    Except String Unit :=
  match a? with
  | none => .ok ()
  | some a =>
    match a.tools.find? (fun t => t.type == "function" && (fns.lookup t.fname).isNone) with
    | some t =>
      .error ("The assistant " ++ a.name ++ " has the Function " ++ t.fname ++
        " registered, but no handler was provided.")
    | none => .ok ()

/-- The status list `checkForActiveRun` treats as excluding a run from
"active" detection at initialization (note it includes `cancelling`, unlike
the poll loop's terminal test). -/
def initActiveExcluded : List String :=
  ["completed", "failed", "cancelled", "expired", "cancelling"]

/-- `ThreadManager.checkForActiveRun`: GET `/runs/latest`, take the first
run of the returned list, and if it exists and its status is not in the
excluded list, record it as active, fire `onRunStatusChanged` and begin
polling (polling modelled separately by `pollChain`). -/
def checkForActiveRun (resp : FetchResult (List Run)) (st : MgrState) :
    Except String (MgrState × List Event × Option Run) :=
  if st.threadId.isNone then .error "Thread ID not provided"
  else
    match resp with
    | .notOk => .error "Failed to retrieve run"
    | .ok runs =>
      match runs.head? with
      | some r =>
        if !(initActiveExcluded.contains r.status) then
          .ok ({ st with activeRunId := some r.id }, [.runStatusChanged r.status], some r)
        else .ok (st, [], some r)
      | none => .ok (st, [], none)

/-- The environment seen by one `init` execution: the outcomes of the
fetches init performs, in order (retrieve assistant; then, when a thread id
was supplied: retrieve thread, list messages, list runs via `/runs/latest`). -/
structure InitEnv where
  assistantResp : FetchResult Assistant
  threadResp : FetchResult Unit
  messagesResp : FetchResult (List Msg)
  runsResp : FetchResult (List Run)
  deriving Repr

/-- `ThreadManager.init`: fetch the assistant, run the configuration check,
then (when a thread id was supplied) fetch thread, messages and the latest
run, and finally mark initialized and fire `onInitialized`.  The result is
the events emitted up to the point of failure, paired with the final state
or the thrown error — the caller never awaits this routine. -/
def runInit (env : InitEnv) (st : MgrState) (fns : List (String × Handler)) :
    List Event × Except String MgrState :=
  match env.assistantResp with
  | .notOk => ([], .error "Failed to retrieve assistant")
  | .ok a =>
    let st0 := { st with assistant := some a }
    match checkAssistantFunctions (some a) fns with
    | .error e => ([], .error e)
    | .ok _ =>
      match st0.threadId with
      | none => ([.initialized], .ok { st0 with initialized := true })
      | some _ =>
        match env.threadResp with
        | .notOk => ([], .error "Failed to retrieve thread")
        | .ok _ =>
          match env.messagesResp with
          | .notOk => ([], .error "Failed to retrieve messages")
          | .ok page =>
            let st1 := { st0 with messages := page }
            match checkForActiveRun env.runsResp st1 with
            | .error e => ([.messagesUpdated page], .error e)
            | .ok (st2, evs, _) =>
              (Event.messagesUpdated page :: evs ++ [Event.initialized],
                .ok { st2 with initialized := true })

/-- The constructor arguments the state model needs. -/
structure ThreadArgs where
  assistantId : String
  threadId : Option String := none
  deriving DecidableEq, Repr

/-- The state a freshly constructed `ThreadManager` holds after the
constructor's field assignments. -/
def mkInitialState (args : ThreadArgs) : MgrState :=
  { assistantId := args.assistantId, threadId := args.threadId }

/-- The `ThreadManager` constructor: plain field assignments followed by an
un-awaited `this.init()`.  It returns the instance for every input and
environment; init's outcome (`runInit`) is never delivered to the caller. -/
def construct (args : ThreadArgs) (env : InitEnv) (fns : List (String × Handler)) :
    Except String MgrState :=
  let _initTask := runInit env (mkInitialState args) fns
  .ok (mkInitialState args)

end ThreadManager

namespace UseThread

/-- The hard-coded second argument the hook's `sendMessage` action passes to
`ThreadManager.sendMessage` as the run instructions. -/
def hookRunInstructions : String :=
  "The user is a 4 year old girl named Sophia..."

/-- `useThread`'s `sendMessage` action (inside `handleOperation`): it calls
the manager's `sendMessage` with the caller's content and the fixed
`hookRunInstructions` string. -/
def hookSendMessage (env : ThreadManager.SendEnv) (st : MgrState) (content : String) :
    Except String (MgrState × List Event × Msg) :=
  ThreadManager.sendMessage env st content (some hookRunInstructions)

/-- The initial value of the hook's `messages` reactive state
(`useState([])`). -/
def hookInitialMessages : List Msg := []

/-- The `onMessagesUpdated` closure the hook hands to the manager, as a
function of the `messages` value it closed over: if the delivered `data`
array is deep-equal (ramda `equals`) to the captured value, do nothing
(`none` = `setMessages` not invoked); otherwise invoke `setMessages` with
`data.reverse()` (`some` = the new state value). -/
def mkOnMessagesUpdated (captured : List Msg) (data : List Msg) : Option (List Msg) :=
  if captured == data then none else some data.reverse

/-- The closure actually installed by the hook: the manager is constructed
during the first render, so the closed-over `messages` value is the initial
empty list, for the whole lifetime of the manager. -/
def hookOnMessagesUpdated (data : List Msg) : Option (List Msg) :=
  mkOnMessagesUpdated hookInitialMessages data

/-- Ascending creation order (oldest first): each message's `created_at` is
at most the next one's. -/
def ascendingByCreated (l : List Msg) : Prop :=
  l.Chain' (fun a b => a.created_at ≤ b.created_at)

/-- Descending creation order (newest first), the order the remote service
returns message lists in. -/
def descendingByCreated (l : List Msg) : Prop :=
  l.Chain' (fun a b => b.created_at ≤ a.created_at)

end UseThread

open ThreadManager UseThread

/-- Claim C1: the claim says a GET whose segments after the assistant id are
`["threads", threadId, "runs", "latest"]` resolves to a run-list operation
and that `checkForActiveRun` succeeds against it.  Evaluating the code at
that input: `determineRouteObject` picks family `run` and action `_`
(`params[4]` is absent), the `routeHandlers.run._` entry has no GET, so the
dispatcher resolves no handler (404 Not Found), and `checkForActiveRun`,
seeing a non-ok response, throws `Failed to retrieve run`. -/
theorem claim_c1_runs_latest_route_404 :
    determineRouteObject ["threads", "T1", "runs", "latest"] = ("run", "_") ∧
    dispatch ["threads", "T1", "runs", "latest"] Method.GET = none ∧
    checkForActiveRun FetchResult.notOk { assistantId := "A1", threadId := some "T1" } =
      .error "Failed to retrieve run" := by
  refine ⟨rfl, rfl, rfl⟩

/-- Claim C2 counterexample: at a poll cycle whose status fetch fails, the
poll callback throws `Failed to check run status`; no `pollScheduled` event
is emitted and the chain ends `died` — the failure is not swallowed and no
subsequent poll is scheduled, contrary to the claim. -/
theorem claim_c2_counterexample :
    pollChain [] true [] [PollResp.failed] =
      ([Event.pollThrew "Failed to check run status"], PollEnd.died) ∧
    (pollChain [] true [] [PollResp.failed]).1.countP Event.isPollScheduled = 0 := by
  refine ⟨rfl, rfl⟩

/-- Claim C2 amended: for every poll cycle whose status fetch fails (non-ok
response or network error), the poll callback throws; nothing inside the
poll loop catches it, no subsequent poll is scheduled, and the poll chain
dies — only the tool-dispatch step swallows its own failures. -/
theorem claim_c2_amended_poll_dies_on_fetch_failure
    (fns : List (String × Handler)) (subOk : Bool) (page : List Msg)
    (rest : List PollResp) :
    pollChain fns subOk page (PollResp.failed :: rest) =
      ([Event.pollThrew "Failed to check run status"], PollEnd.died) := rfl

/-- Claim C3: a run observed in `requires_action` with two function-type
tool calls, the first one's handler throwing and the second returning `s`,
yields a single tool-output submission keyed by tool-call id — `none`
(null) for the throwing call, `some s` for the succeeding call — and the
poll loop schedules another poll afterward whatever the submission outcome
(`subOk` is arbitrary), continuing the chain on `rest`. -/
theorem claim_c3_partial_failure_dispatch
    (fns : List (String × Handler)) (subOk : Bool) (page : List Msg)
    (rest : List PollResp) (r : Run) (a1 a2 : ToolCall) (s : String)
    (htc : r.toolCalls = [a1, a2]) (hst : r.status = "requires_action")
    (h1t : a1.type = "function") (h2t : a2.type = "function")
    (h1 : invokeHandler fns a1 = .error ()) (h2 : invokeHandler fns a2 = .ok s) :
    pollChain fns subOk page (PollResp.run r :: rest) =
      (Event.runStatusChanged "requires_action" ::
        (Event.toolOutputsSubmitted [(a1.id, none), (a2.id, some s)] ::
          (if subOk then [] else [Event.dispatchErrorLogged])) ++
        Event.pollScheduled :: (pollChain fns subOk page rest).1,
        (pollChain fns subOk page rest).2) := by
  have hterm : isTerminalPoll "requires_action" = false := by decide
  simp only [pollChain, hst, hterm, processToolActions, htc, collectResults, h1t, h1, h2t, h2]
  simp

/-- Claim C3 witness: a concrete `requires_action` run with a throwing
handler (`boom`) and a succeeding handler (`good`). -/
theorem claim_c3_partial_failure_dispatch_witness :
    pollChain [("good", fun _ => Except.ok "img-url"), ("boom", fun _ => Except.error ())]
        true [] [PollResp.run ⟨"run_1", "requires_action",
          [⟨"call_1", "function", "boom", "x"⟩, ⟨"call_2", "function", "good", "y"⟩]⟩] =
      ([Event.runStatusChanged "requires_action",
        Event.toolOutputsSubmitted [("call_1", none), ("call_2", some "img-url")],
        Event.pollScheduled], PollEnd.morePolls) := by
  have h := claim_c3_partial_failure_dispatch
    [("good", fun _ => Except.ok "img-url"), ("boom", fun _ => Except.error ())]
    true []
    [] ⟨"run_1", "requires_action",
      [⟨"call_1", "function", "boom", "x"⟩, ⟨"call_2", "function", "good", "y"⟩]⟩
    ⟨"call_1", "function", "boom", "x"⟩ ⟨"call_2", "function", "good", "y"⟩ "img-url"
    rfl rfl rfl rfl rfl rfl
  simpa using h

/-- Claim C4 counterexample: the remote service returns the list newest
first (`created_at` 2 before 1).  `getMessages` stores exactly that
descending list in `this.messages` and passes the same descending list to
`onMessagesUpdated` — it is not in ascending order, contrary to the claim
that the manager re-orders before exposing. -/
theorem claim_c4_counterexample :
    getMessages (FetchResult.ok [⟨"m2", 2, "b"⟩, ⟨"m1", 1, "a"⟩])
        { assistantId := "A1", threadId := some "T1" } =
      .ok ({ assistantId := "A1", threadId := some "T1",
             messages := [⟨"m2", 2, "b"⟩, ⟨"m1", 1, "a"⟩] },
           [Event.messagesUpdated [⟨"m2", 2, "b"⟩, ⟨"m1", 1, "a"⟩]]) ∧
    ¬ ascendingByCreated [⟨"m2", 2, "b"⟩, ⟨"m1", 1, "a"⟩] := by
  refine ⟨rfl, ?_⟩
  simp [ascendingByCreated, List.chain'_cons, List.chain'_singleton]

/-- Claim C4 amended: the manager stores the fetched message list unchanged
and passes that same (descending) list to `onMessagesUpdated`; the
re-ordering happens in the binding hook, whose callback — when it accepts
an update — sets its state to the reversed list, which is ascending
whenever the delivered list was descending. -/
theorem claim_c4_amended_hook_reverses
    (resp : FetchResult (List Msg)) (st : MgrState) (t : String) (page : List Msg)
    (h1 : st.threadId = some t) (h2 : resp = .ok page) :
    getMessages resp st = .ok ({ st with messages := page }, [.messagesUpdated page]) ∧
    (∀ captured, captured ≠ page → mkOnMessagesUpdated captured page = some page.reverse) ∧
    (descendingByCreated page → ascendingByCreated page.reverse) := by
  subst h2
  refine ⟨?_, ?_, ?_⟩
  · simp [getMessages, h1]
  · intro captured hne
    simp [mkOnMessagesUpdated, hne]
  · intro hdesc
    exact List.chain'_reverse.mpr hdesc

/-- Claim C4 amended witness: a concrete two-element descending page; the
manager stores and forwards it unchanged, and the hook's reversal of it is
ascending. -/
theorem claim_c4_amended_hook_reverses_witness :
    getMessages (FetchResult.ok [⟨"m2", 2, "b"⟩, ⟨"m1", 1, "a"⟩])
        { assistantId := "A1", threadId := some "T1" } =
      .ok ({ assistantId := "A1", threadId := some "T1",
             messages := [⟨"m2", 2, "b"⟩, ⟨"m1", 1, "a"⟩] },
           [Event.messagesUpdated [⟨"m2", 2, "b"⟩, ⟨"m1", 1, "a"⟩]]) ∧
    mkOnMessagesUpdated [] [⟨"m2", 2, "b"⟩, ⟨"m1", 1, "a"⟩] =
      some [⟨"m1", 1, "a"⟩, ⟨"m2", 2, "b"⟩] ∧
    ascendingByCreated [⟨"m1", 1, "a"⟩, ⟨"m2", 2, "b"⟩] := by
  have h := claim_c4_amended_hook_reverses
    (FetchResult.ok [⟨"m2", 2, "b"⟩, ⟨"m1", 1, "a"⟩])
    { assistantId := "A1", threadId := some "T1" } "T1"
    [⟨"m2", 2, "b"⟩, ⟨"m1", 1, "a"⟩] rfl rfl
  exact ⟨h.1, h.2.1 [] (by simp),
    h.2.2 (by simp [descendingByCreated, List.chain'_cons, List.chain'_singleton])⟩

/-- Claim C5: with a thread id present and all three fetches succeeding,
`sendMessage` first issues the message-creation request, then refreshes the
message cache (firing `onMessagesUpdated`), then starts exactly one new run
(one `runCreateRequested` event), in that order, and resolves with the
appended message object `m`. -/
theorem claim_c5_send_message_order
    (env : SendEnv) (st : MgrState) (content : String) (ri : Option String)
    (t : String) (m : Msg) (page : List Msg) (r : Run)
    (h1 : st.threadId = some t) (h2 : env.appendResp = .ok m)
    (h3 : env.messagesResp = .ok page) (h4 : env.runResp = .ok r) :
    sendMessage env st content ri =
      .ok ({ st with messages := page, activeRunId := some r.id },
        [Event.messageCreateRequested content ri, Event.messagesUpdated page,
         Event.runCreateRequested, Event.runStatusChanged r.status], m) := by
  simp [sendMessage, getMessages, startRun, h1, h2, h3, h4]

/-- Claim C5 witness: sending `"hello"` on thread `T1` with concrete
successful responses. -/
theorem claim_c5_send_message_order_witness :
    sendMessage
        ⟨FetchResult.ok ⟨"m9", 9, "hello"⟩,
         FetchResult.ok [⟨"m9", 9, "hello"⟩, ⟨"m1", 1, "a"⟩],
         FetchResult.ok ⟨"run_7", "queued", []⟩⟩
        { assistantId := "A1", threadId := some "T1" } "hello" none =
      .ok ({ assistantId := "A1", threadId := some "T1",
             messages := [⟨"m9", 9, "hello"⟩, ⟨"m1", 1, "a"⟩],
             activeRunId := some "run_7" },
        [Event.messageCreateRequested "hello" none,
         Event.messagesUpdated [⟨"m9", 9, "hello"⟩, ⟨"m1", 1, "a"⟩],
         Event.runCreateRequested, Event.runStatusChanged "queued"],
        ⟨"m9", 9, "hello"⟩) :=
  claim_c5_send_message_order
    ⟨FetchResult.ok ⟨"m9", 9, "hello"⟩,
     FetchResult.ok [⟨"m9", 9, "hello"⟩, ⟨"m1", 1, "a"⟩],
     FetchResult.ok ⟨"run_7", "queued", []⟩⟩
    { assistantId := "A1", threadId := some "T1" } "hello" none
    "T1" ⟨"m9", 9, "hello"⟩ [⟨"m9", 9, "hello"⟩, ⟨"m1", 1, "a"⟩]
    ⟨"run_7", "queued", []⟩ rfl rfl rfl rfl

/-- The tool-dispatch step emits no message-refresh event. -/
theorem countP_msgUpd_processToolActions (fns : List (String × Handler)) (subOk : Bool)
    (r : Run) : (processToolActions fns subOk r).countP Event.isMessagesUpdated = 0 := by
  cases subOk <;> simp [processToolActions, Event.isMessagesUpdated]

/-- The tool-dispatch step schedules no poll timer itself. -/
theorem countP_pollSched_processToolActions (fns : List (String × Handler)) (subOk : Bool)
    (r : Run) : (processToolActions fns subOk r).countP Event.isPollScheduled = 0 := by
  cases subOk <;> simp [processToolActions, Event.isPollScheduled]

/-- Claim C6: a poll chain fed non-terminal statuses `ss` followed by a
terminal status `r` stops (`PollEnd.stopped`: no timer pending after the
terminal observation), fires exactly one message refresh, and scheduled
exactly one follow-up poll per non-terminal cycle (`ss.length` — none for
the terminal one); `cancelling` is non-terminal for the poll loop, and any
single non-terminal status leaves the chain with a pending poll. -/
theorem claim_c6_poll_stops_on_terminal
    (fns : List (String × Handler)) (subOk : Bool) (page : List Msg)
    (ss : List Run) (r : Run)
    (hss : ∀ x ∈ ss, isTerminalPoll x.status = false)
    (ht : isTerminalPoll r.status = true) :
    ((pollChain fns subOk page (ss.map PollResp.run ++ [PollResp.run r])).2 =
        PollEnd.stopped ∧
      (pollChain fns subOk page (ss.map PollResp.run ++ [PollResp.run r])).1.countP
        Event.isMessagesUpdated = 1 ∧
      (pollChain fns subOk page (ss.map PollResp.run ++ [PollResp.run r])).1.countP
        Event.isPollScheduled = ss.length) ∧
    isTerminalPoll "cancelling" = false ∧
    (∀ q : Run, isTerminalPoll q.status = false →
      (pollChain fns subOk page [PollResp.run q]).2 = PollEnd.morePolls) := by
  refine ⟨?_, by decide, ?_⟩
  · induction ss with
    | nil =>
      simp [pollChain, ht, Event.isMessagesUpdated, Event.isPollScheduled]
    | cons a as ih =>
      have ha := hss a (List.mem_cons_self a as)
      have ih' := ih (fun x hx => hss x (List.mem_cons_of_mem a hx))
      have hd1 : ((if a.status == "requires_action" then
          processToolActions fns subOk a else []).countP Event.isMessagesUpdated) = 0 := by
        split
        · exact countP_msgUpd_processToolActions fns subOk a
        · rfl
      have hd2 : ((if a.status == "requires_action" then
          processToolActions fns subOk a else []).countP Event.isPollScheduled) = 0 := by
        split
        · exact countP_pollSched_processToolActions fns subOk a
        · rfl
      simp only [List.map_cons, List.cons_append, pollChain, ha, Bool.false_eq_true, if_false]
      refine ⟨ih'.1, ?_, ?_⟩
      · have h1 := ih'.2.1
        simp only [List.countP_cons, List.countP_append, hd1]
        simp [Event.isMessagesUpdated]
        omega
      · have h2 := ih'.2.2
        simp only [List.countP_cons, List.countP_append, hd2]
        simp [Event.isPollScheduled]
        omega
  · intro q hq
    simp [pollChain, hq]

/-- Claim C6 witness: statuses `queued`, `in_progress`, then `completed`. -/
theorem claim_c6_poll_stops_on_terminal_witness :
    ((pollChain [] true [] ([⟨"r1", "queued", []⟩, ⟨"r1", "in_progress", []⟩].map
        PollResp.run ++ [PollResp.run ⟨"r1", "completed", []⟩])).2 = PollEnd.stopped ∧
      (pollChain [] true [] ([⟨"r1", "queued", []⟩, ⟨"r1", "in_progress", []⟩].map
        PollResp.run ++ [PollResp.run ⟨"r1", "completed", []⟩])).1.countP
        Event.isMessagesUpdated = 1 ∧
      (pollChain [] true [] ([⟨"r1", "queued", []⟩, ⟨"r1", "in_progress", []⟩].map
        PollResp.run ++ [PollResp.run ⟨"r1", "completed", []⟩])).1.countP
        Event.isPollScheduled = 2) ∧
    isTerminalPoll "cancelling" = false :=
  have h := claim_c6_poll_stops_on_terminal [] true []
    [⟨"r1", "queued", []⟩, ⟨"r1", "in_progress", []⟩] ⟨"r1", "completed", []⟩
    (by decide) (by decide)
  ⟨h.1, h.2.1⟩

/-- Claim C7: whenever the fetched assistant declares a function-type tool
with no matching entry in the local function map (`t` is the first such
tool found by the check), `init` raises the configuration error naming that
function, having emitted no events — in particular an assistant declaring
`generate_image` against an empty function map fails this way. -/
theorem claim_c7_missing_handler_config_error
    (env : InitEnv) (st : MgrState) (fns : List (String × Handler))
    (a : Assistant) (t : ToolSpec)
    (ha : env.assistantResp = .ok a)
    (hfind : a.tools.find?
      (fun tl => tl.type == "function" && (fns.lookup tl.fname).isNone) = some t) :
    (runInit env st fns).2 =
      .error ("The assistant " ++ a.name ++ " has the Function " ++ t.fname ++
        " registered, but no handler was provided.") ∧
    (runInit env st fns).1 = [] ∧
    t.type = "function" ∧ fns.lookup t.fname = none := by
  have hp := List.find?_some hfind
  simp only [Bool.and_eq_true, beq_iff_eq, Option.isNone_iff_eq_none] at hp
  refine ⟨?_, ?_, hp.1, hp.2⟩ <;>
    simp [runInit, ha, checkAssistantFunctions, hfind]

/-- Claim C7 witness: assistant `A` declaring function-type tool
`generate_image`, initialized with an empty function map. -/
theorem claim_c7_missing_handler_config_error_witness :
    (runInit ⟨FetchResult.ok ⟨"A", [⟨"function", "generate_image"⟩]⟩,
        FetchResult.notOk, FetchResult.notOk, FetchResult.notOk⟩
      { assistantId := "A1" } []).2 =
      .error ("The assistant " ++ "A" ++ " has the Function " ++ "generate_image" ++
        " registered, but no handler was provided.") :=
  (claim_c7_missing_handler_config_error
    ⟨FetchResult.ok ⟨"A", [⟨"function", "generate_image"⟩]⟩,
      FetchResult.notOk, FetchResult.notOk, FetchResult.notOk⟩
    { assistantId := "A1" } [] ⟨"A", [⟨"function", "generate_image"⟩]⟩
    ⟨"function", "generate_image"⟩ rfl rfl).1

/-- Claim C8: evaluating the hook's installed `onMessagesUpdated` closure.
After a first delivery of the singleton list `[m1]` the hook's state is
`[m1]` (first conjunct: the setter is invoked with `[m1]`); a second,
identical delivery — deep-equal to the state the hook now holds — again
invokes the setter (same first conjunct), because the closure compares
against the `messages` value captured at construction (the initial empty
list), not the current state: had it compared against the current `[m1]`
it would have suppressed the update (second conjunct); only a delivery
deep-equal to the initial empty list is ever suppressed (third conjunct). -/
theorem claim_c8_stale_closure_eval :
    hookOnMessagesUpdated [⟨"m1", 1, "hi"⟩] = some [⟨"m1", 1, "hi"⟩] ∧
    mkOnMessagesUpdated [⟨"m1", 1, "hi"⟩] [⟨"m1", 1, "hi"⟩] = none ∧
    hookOnMessagesUpdated [] = none := by
  refine ⟨by decide, by decide, by decide⟩

/-- Claim C9: the hook's `sendMessage` action invokes the manager's
`sendMessage` with the caller's content and the fixed hard-coded
run-instructions string, which lands in the serialized message-creation
request body (the `messageCreateRequested` event) for every caller-supplied
content; the string begins with
`The user is a 4 year old girl named Sophia`. -/
theorem claim_c9_hardcoded_instructions
    (env : SendEnv) (st : MgrState) (content : String)
    (t : String) (m : Msg) (page : List Msg) (r : Run)
    (h1 : st.threadId = some t) (h2 : env.appendResp = .ok m)
    (h3 : env.messagesResp = .ok page) (h4 : env.runResp = .ok r) :
    hookSendMessage env st content =
      .ok ({ st with messages := page, activeRunId := some r.id },
        [Event.messageCreateRequested content (some hookRunInstructions),
         Event.messagesUpdated page, Event.runCreateRequested,
         Event.runStatusChanged r.status], m) ∧
    "The user is a 4 year old girl named Sophia".toList.isPrefixOf
      hookRunInstructions.toList = true := by
  refine ⟨?_, by decide⟩
  simp [hookSendMessage, sendMessage, getMessages, startRun, h1, h2, h3, h4]

/-- Claim C9 witness: concrete content `"draw a cat"` on thread `T1`. -/
theorem claim_c9_hardcoded_instructions_witness :
    hookSendMessage
        ⟨FetchResult.ok ⟨"m3", 3, "draw a cat"⟩, FetchResult.ok [⟨"m3", 3, "draw a cat"⟩],
         FetchResult.ok ⟨"run_2", "queued", []⟩⟩
        { assistantId := "A1", threadId := some "T1" } "draw a cat" =
      .ok ({ assistantId := "A1", threadId := some "T1",
             messages := [⟨"m3", 3, "draw a cat"⟩], activeRunId := some "run_2" },
        [Event.messageCreateRequested "draw a cat" (some hookRunInstructions),
         Event.messagesUpdated [⟨"m3", 3, "draw a cat"⟩], Event.runCreateRequested,
         Event.runStatusChanged "queued"], ⟨"m3", 3, "draw a cat"⟩) ∧
    "The user is a 4 year old girl named Sophia".toList.isPrefixOf
      hookRunInstructions.toList = true :=
  claim_c9_hardcoded_instructions
    ⟨FetchResult.ok ⟨"m3", 3, "draw a cat"⟩, FetchResult.ok [⟨"m3", 3, "draw a cat"⟩],
      FetchResult.ok ⟨"run_2", "queued", []⟩⟩
    { assistantId := "A1", threadId := some "T1" } "draw a cat"
    "T1" ⟨"m3", 3, "draw a cat"⟩ [⟨"m3", 3, "draw a cat"⟩] ⟨"run_2", "queued", []⟩
    rfl rfl rfl rfl

/-- A failed `init` never reaches the `onInitialized` call: whatever branch
of `runInit` produced the error, the emitted event list holds no
`initialized` event. -/
theorem runInit_error_no_initialized (env : InitEnv) (st : MgrState)
    (fns : List (String × Handler)) (e : String)
    (h : (runInit env st fns).2 = .error e) :
    Event.initialized ∉ (runInit env st fns).1 := by
  rcases henv : env.assistantResp with _ | a
  · simp [runInit, henv]
  · rcases hch : checkAssistantFunctions (some a) fns with e' | u
    · simp [runInit, henv, hch]
    · rcases hth : st.threadId with _ | tid
      · simp [runInit, henv, hch, hth] at h
      · rcases htr : env.threadResp with _ | u2
        · simp [runInit, henv, hch, hth, htr]
        · rcases hmr : env.messagesResp with _ | page
          · simp [runInit, henv, hch, hth, htr, hmr]
          · rcases hcr : checkForActiveRun env.runsResp
                { assistantId := st.assistantId, threadId := some tid, assistant := some a,
                  messages := page, activeRunId := st.activeRunId,
                  initialized := st.initialized } with e2 | res
            · simp [runInit, henv, hch, hth, htr, hmr, hcr]
            · simp [runInit, henv, hch, hth, htr, hmr, hcr] at h

/-- Claim C10: the `ThreadManager` constructor returns the instance for
every argument tuple and every environment — `init` is started un-awaited,
so its outcome is never delivered to the constructor's caller — and
whenever `init` fails (including the missing-handler configuration error),
the `onInitialized` callback is never invoked. -/
theorem claim_c10_constructor_never_throws
    (args : ThreadArgs) (env : InitEnv) (fns : List (String × Handler)) :
    construct args env fns = .ok (mkInitialState args) ∧
    ∀ e, (runInit env (mkInitialState args) fns).2 = .error e →
      Event.initialized ∉ (runInit env (mkInitialState args) fns).1 := by
  refine ⟨rfl, ?_⟩
  intro e h
  exact runInit_error_no_initialized env (mkInitialState args) fns e h

/-- Claim C10 witness: a constructor call whose init environment fails at
the very first fetch; the constructor still returns the instance and no
`initialized` event is emitted. -/
theorem claim_c10_constructor_never_throws_witness :
    construct ⟨"A1", some "T1"⟩
        ⟨FetchResult.notOk, FetchResult.notOk, FetchResult.notOk, FetchResult.notOk⟩ [] =
      .ok (mkInitialState ⟨"A1", some "T1"⟩) ∧
    Event.initialized ∉ (runInit
        ⟨FetchResult.notOk, FetchResult.notOk, FetchResult.notOk, FetchResult.notOk⟩
        (mkInitialState ⟨"A1", some "T1"⟩) []).1 :=
  have h := claim_c10_constructor_never_throws ⟨"A1", some "T1"⟩
    ⟨FetchResult.notOk, FetchResult.notOk, FetchResult.notOk, FetchResult.notOk⟩ []
  ⟨h.1, h.2 "Failed to retrieve assistant" rfl⟩

end Assistants
